import Mathlib

/-!
Shallow embedding of the AI-powered health dashboard's analysis pipeline:
the normalizer (data_integration.py), the fitness tracking agent, the sleep
analysis agent, and the insights aggregator from the specialized agents
directory. Python dicts with possibly-absent keys are modelled as structures
with Option fields; a `.get(k, default)` access is `Option.getD`, a bare
`d[k]` access that can raise KeyError is an `Option` bind or an `Except`
computation; `datetime.now()` is passed in as an explicit timestamp argument.
Numeric values are rationals.
-/

/-! ## Normalizer (data_integration.py, HealthDataIntegrator) -/

/-- A raw per-day metric dict as consumed by `_validate_data_structure` and
`normalize_data`; every key may be absent. -/
structure RawMetric where
  date : Option String
  steps : Option Int
  heart_rate : Option Int
  sleep_hours : Option ℚ
  hrv : Option Int
deriving DecidableEq

/-- The raw payload dict: `user_id` and `metrics` keys may be absent. -/
structure RawData where
  user_id : Option String
  metrics : Option (List RawMetric)
deriving DecidableEq

/-- `_validate_data_structure`: requires `user_id` and `metrics` keys, then
requires date, steps, heart_rate, sleep_hours on every metric.  The loop body
never runs for an empty metrics list, so an empty list validates. -/
def validateDataStructure (d : RawData) : Bool :=
  d.user_id.isSome && d.metrics.isSome &&
    (d.metrics.getD []).all fun m =>
      m.date.isSome && m.steps.isSome && m.heart_rate.isSome && m.sleep_hours.isSome

/-- `_calculate_sleep_quality`. -/
def calculateSleepQuality (sleep_hours : ℚ) : String :=
  if 7 ≤ sleep_hours then "excellent"
  else if 6 ≤ sleep_hours then "good"
  else if 5 ≤ sleep_hours then "fair"
  else "poor"

/-- `_classify_activity_level`. -/
def classifyActivityLevel (steps : Int) : String :=
  if 10000 ≤ steps then "high"
  else if 5000 ≤ steps then "moderate"
  else "low"

/-- `_classify_heart_rate_zone`. -/
def classifyHeartRateZone (heart_rate : Int) : String :=
  if heart_rate < 60 then "resting"
  else if heart_rate < 100 then "normal"
  else if heart_rate < 120 then "elevated"
  else "high"

/-- `_assess_sleep_adequacy`. -/
def assessSleepAdequacy (sleep_hours : ℚ) : String :=
  if 7 ≤ sleep_hours then "adequate"
  else if 6 ≤ sleep_hours then "borderline"
  else "insufficient"

/-- The `physical_activity` sub-dict of a normalized metric. -/
structure PhysicalActivity where
  steps : Int
  heart_rate : Int
  hrv : Int
deriving DecidableEq

/-- The `sleep` sub-dict of a normalized metric. -/
structure SleepInfo where
  duration_hours : ℚ
  quality_score : String
deriving DecidableEq

/-- The `derived_metrics` sub-dict of a normalized metric. -/
structure DerivedMetrics where
  activity_level : String
  heart_rate_zone : String
  sleep_adequacy : String
deriving DecidableEq

/-- One normalized per-day record as built inside `normalize_data`. -/
structure NormalizedMetric where
  date : String
  physical_activity : PhysicalActivity
  sleep : SleepInfo
  derived_metrics : DerivedMetrics
deriving DecidableEq

/-- The loop body of `normalize_data`: bare `metric[k]` accesses raise
(`none`) when the key is absent; `metric.get(hrv, 0)` defaults to 0. -/
def normalizeMetric (m : RawMetric) : Option NormalizedMetric := do
  let date ← m.date
  let steps ← m.steps
  let hr ← m.heart_rate
  let sh ← m.sleep_hours
  pure {
    date := date
    physical_activity := { steps := steps, heart_rate := hr, hrv := m.hrv.getD 0 }
    sleep := { duration_hours := sh, quality_score := calculateSleepQuality sh }
    derived_metrics := {
      activity_level := classifyActivityLevel steps
      heart_rate_zone := classifyHeartRateZone hr
      sleep_adequacy := assessSleepAdequacy sh } }

/-- The `for metric in raw_data[metrics]` loop of `normalize_data`:
each metric is normalized and appended; a raising access aborts. -/
def normalizeMetrics : List RawMetric → Option (List NormalizedMetric)
  | [] => some []
  | m :: ms => do
    let nm ← normalizeMetric m
    let nms ← normalizeMetrics ms
    pure (nm :: nms)

/-- The full payload returned by `normalize_data`, including the
`last_updated` timestamp taken from `datetime.now()`. -/
structure NormalizedData where
  user_id : String
  data_source : String
  last_updated : String
  metrics : List NormalizedMetric
deriving DecidableEq

/-- `normalize_data`; the wall-clock reading `datetime.now().isoformat()` is
the explicit `now` argument.  Bare `raw_data[user_id]` and
`raw_data[metrics]` accesses raise when absent. -/
def normalizeData (now : String) (raw : RawData) : Option NormalizedData := do
  let uid ← raw.user_id
  let ms ← raw.metrics
  let nms ← normalizeMetrics ms
  pure { user_id := uid, data_source := "mock_data", last_updated := now, metrics := nms }

/-- The `load_mock_data` → `normalize_data` pipeline: validation raises
`ValueError` (here `none`) when `_validate_data_structure` is false, and only
then does normalization run. -/
def loadAndNormalize (now : String) (raw : RawData) : Option NormalizedData :=
  if validateDataStructure raw then normalizeData now raw else none

/-! ## Fitness tracking agent (fitness_tracking_agent.py) -/

/-- `np.mean` over a list of numbers (population mean as an exact rational). -/
def meanQ (xs : List ℚ) : ℚ := xs.sum / xs.length

/-- Population variance, i.e. the square of `np.std`. -/
def varQ (xs : List ℚ) : ℚ := meanQ (xs.map fun x => (x - meanQ xs) ^ 2)

/-- `np.std`: the population standard deviation, a real number. -/
noncomputable def stdQ (xs : List ℚ) : ℝ := Real.sqrt (varQ xs)

/-- The `steps_data` extraction in `analyze_fitness_data`. -/
def stepsData (ms : List NormalizedMetric) : List ℚ :=
  ms.map fun m => (m.physical_activity.steps : ℚ)

/-- The `heart_rate_data` extraction in `analyze_fitness_data`. -/
def heartRateData (ms : List NormalizedMetric) : List ℚ :=
  ms.map fun m => (m.physical_activity.heart_rate : ℚ)

/-- `_calculate_fitness_score`. -/
def calculateFitnessScore (steps heart_rates : List ℚ) : ℚ :=
  let steps_score := min 100 (meanQ steps / 10000 * 100)
  let hr_score := max 0 (100 - (meanQ heart_rates - 60) * 2)
  (steps_score + hr_score) / 2

/-! ## Sleep analysis agent (sleep_analysis_agent.py) -/

/-- `sleep_goals[optimal_duration]`. -/
def optimalDuration : ℚ := 7.5

/-- The `durations` extraction used throughout the sleep agent: the
`duration_hours` of every record, in order. -/
def sleepDurations (ms : List NormalizedMetric) : List ℚ :=
  ms.map fun m => m.sleep.duration_hours

/-- `_calculate_consistency` of the sleep agent: 1.0 for fewer than two
durations, else `1 - np.std/np.mean`. -/
noncomputable def calculateConsistency (durations : List ℚ) : ℝ :=
  if durations.length < 2 then 1
  else 1 - stdQ durations / (meanQ durations : ℝ)

/-- `_calculate_sleep_score`: a three-tier duration component plus thirty
times the consistency. -/
noncomputable def calculateSleepScore (durations : List ℚ) : ℝ :=
  if durations = [] then 0
  else
    let avg := meanQ durations
    let duration_score : ℝ :=
      if 7 ≤ avg ∧ avg ≤ 9 then 70
      else if (6 ≤ avg ∧ avg < 7) ∨ (9 < avg ∧ avg ≤ 10) then 50
      else 30
    duration_score + calculateConsistency durations * 30

/-- `_calculate_sleep_debt`. -/
def calculateSleepDebt (durations : List ℚ) : ℚ :=
  if durations = [] then 0
  else (durations.map fun d => max 0 (optimalDuration - d)).sum

/-- One `sleep_data` entry as extracted in `analyze_sleep_data`. -/
structure SleepEntry where
  date : String
  sleep_hours : ℚ
  quality_score : String
deriving DecidableEq

/-- One element of the list built by `_generate_sleep_recommendations`. -/
structure SleepRecommendation where
  date : String
  recommendation : String
  priority : String
  sleep_hours : ℚ
  quality_score : String
deriving DecidableEq

/-- The loop body of `_generate_sleep_recommendations`: the if/elif chain
choosing recommendation text and priority. -/
def sleepRecommendationFor (entry : SleepEntry) : SleepRecommendation :=
  let duration := entry.sleep_hours
  let quality := entry.quality_score
  if duration < 6 then
    { date := entry.date
      recommendation := "Your sleep duration is insufficient. Aim for 7-9 hours nightly for optimal health and recovery."
      priority := "high", sleep_hours := duration, quality_score := quality }
  else if duration > 9 then
    { date := entry.date
      recommendation := "You\x27re sleeping more than recommended. Consider if you\x27re getting quality sleep or if there are underlying health issues."
      priority := "medium", sleep_hours := duration, quality_score := quality }
  else if quality = "poor" then
    { date := entry.date
      recommendation := "Focus on sleep quality. Consider sleep hygiene practices like consistent bedtime and screen-free hour before bed."
      priority := "high", sleep_hours := duration, quality_score := quality }
  else if quality = "fair" then
    { date := entry.date
      recommendation := "Your sleep is adequate but could be improved. Try maintaining a consistent sleep schedule."
      priority := "medium", sleep_hours := duration, quality_score := quality }
  else
    { date := entry.date
      recommendation := "Excellent sleep habits! Continue maintaining your current sleep routine."
      priority := "low", sleep_hours := duration, quality_score := quality }

/-- `_generate_sleep_recommendations`: one recommendation per entry. -/
def generateSleepRecommendations (entries : List SleepEntry) : List SleepRecommendation :=
  entries.map sleepRecommendationFor

/-! ## Insights aggregator (Aggregate_insights.py, InsightsAggregator)

The three input reports are dicts whose sections may be absent; guarded
accesses (`k in d`, `.get`) are matches on `Option`, while the two unguarded
`sleep_data[sleep_quality_metrics]` subscripts inside `_analyze_correlations`
and `_generate_priority_recommendations` can raise `KeyError`, modelled with
`Except Unit`. -/

/-- The `performance_metrics` section of a fitness report. -/
structure PerformanceMetrics where
  average_steps : Option ℚ
  fitness_score : Option ℚ
deriving DecidableEq

/-- The `trends` section of a fitness report. -/
structure FitnessTrends where
  steps_trend : Option String
deriving DecidableEq

/-- A fitness report as read by the aggregator. -/
structure FitnessData where
  user_id : Option String
  performance_metrics : Option PerformanceMetrics
  trends : Option FitnessTrends
deriving DecidableEq

/-- The `sleep_patterns` section of a sleep report. -/
structure SleepPatterns where
  average_duration : Option ℚ
  quality_trend : Option String
deriving DecidableEq

/-- The `sleep_quality_metrics` section of a sleep report. -/
structure SleepQualityMetrics where
  sleep_score : Option ℚ
deriving DecidableEq

/-- A sleep report as read by the aggregator. -/
structure SleepData where
  sleep_patterns : Option SleepPatterns
  sleep_quality_metrics : Option SleepQualityMetrics
deriving DecidableEq

/-- The `sentiment_distribution` sub-dict of a sentiment summary. -/
structure SentimentDistribution where
  positive_percentage : Option ℚ
  negative_percentage : Option ℚ
deriving DecidableEq

/-- The `summary` section of a sentiment report. -/
structure SentimentSummary where
  overall_sentiment : Option String
  sentiment_distribution : Option SentimentDistribution
deriving DecidableEq

/-- The `sentiment_trends` section of a sentiment report. -/
structure SentimentTrends where
  trend : Option String
deriving DecidableEq

/-- A sentiment report as read by the aggregator. -/
structure SentimentData where
  summary : Option SentimentSummary
  sentiment_trends : Option SentimentTrends
deriving DecidableEq

/-- One entry of the `correlation_analysis` dict. -/
structure Correlation where
  strength : String
  description : String
deriving DecidableEq

/-- The `correlation_analysis` dict: at most the keys `fitness_sleep` and
`mood_fitness`. -/
structure CorrelationAnalysis where
  fitness_sleep : Option Correlation
  mood_fitness : Option Correlation
deriving DecidableEq

/-- One entry of the `priority_recommendations` list. -/
structure PriorityRecommendation where
  priority : String
  category : String
  recommendation : String
  action : String
deriving DecidableEq

/-- The `trend_analysis` dict: optional `fitness`, `sleep`, `mood` keys plus
the always-set `overall`. -/
structure TrendAnalysis where
  fitness : Option String
  sleep : Option String
  mood : Option String
  overall : String
deriving DecidableEq

/-- One phase of the static `action_plan` (the integer week `1` of the first
phase is rendered as the string `1`). -/
structure ActionPhase where
  week : String
  focus : String
  actions : List String
deriving DecidableEq

/-- The aggregator's result dict.  `error` is the optional `error` key:
`none` on the success path, set by `_get_error_response`.  An empty
`trend_analysis` dict (error path) is `none`. -/
structure AggregatedInsight where
  user_id : String
  error : Option String
  holistic_insights : List String
  correlation_analysis : CorrelationAnalysis
  priority_recommendations : List PriorityRecommendation
  wellness_score : ℚ
  trend_analysis : Option TrendAnalysis
  action_plan : List ActionPhase
deriving DecidableEq

/-- `_generate_holistic_insights`: three guarded append blocks. -/
def generateHolisticInsights (f : FitnessData) (s : SleepData) (m : SentimentData) :
    List String :=
  let block1 : List String :=
    match f.performance_metrics, s.sleep_patterns with
    | some pm, some sp =>
      let avg_steps := pm.average_steps.getD 0
      let avg_sleep := sp.average_duration.getD 0
      if avg_steps > 8000 ∧ avg_sleep ≥ 7 then
        ["Excellent balance between physical activity and sleep! Your lifestyle supports optimal health."]
      else if avg_steps < 5000 ∧ avg_sleep < 6 then
        ["Both your activity level and sleep duration need attention. Consider a gradual approach to improve both areas."]
      else if avg_steps > 8000 ∧ avg_sleep < 6 then
        ["High activity with insufficient sleep may lead to burnout. Prioritize sleep for better recovery."]
      else []
    | _, _ => []
  let block2 : List String :=
    match m.summary, f.performance_metrics with
    | some sm, some pm =>
      let overall_sentiment := sm.overall_sentiment.getD "neutral"
      let fitness_score := pm.fitness_score.getD 0
      if overall_sentiment = "positive" ∧ fitness_score > 70 then
        ["Great synergy between your mental and physical well-being! This positive cycle supports overall health."]
      else if overall_sentiment = "negative" ∧ fitness_score < 50 then
        ["Your mood and physical activity both need attention. Consider starting with light exercise to boost both mood and fitness."]
      else []
    | _, _ => []
  let block3 : List String :=
    match s.sleep_quality_metrics, m.summary with
    | some sqm, some sm =>
      let sleep_score := sqm.sleep_score.getD 0
      let overall_sentiment := sm.overall_sentiment.getD "neutral"
      if sleep_score > 80 ∧ overall_sentiment = "positive" then
        ["Quality sleep is supporting your positive mood. Maintain your current sleep routine."]
      else if sleep_score < 50 ∧ overall_sentiment = "negative" then
        ["Poor sleep quality may be contributing to low mood. Focus on sleep hygiene to improve both sleep and emotional well-being."]
      else []
    | _, _ => []
  block1 ++ block2 ++ block3

/-- `_analyze_correlations`.  Inside the first guarded block the code
subscripts `sleep_data[sleep_quality_metrics]` without a guard, which raises
`KeyError` when that section is absent. -/
def analyzeCorrelations (f : FitnessData) (s : SleepData) (m : SentimentData) :
    Except Unit CorrelationAnalysis := do
  let fitness_sleep : Option Correlation ←
    match f.performance_metrics, s.sleep_patterns with
    | some pm, some _ => do
      let fitness_score := pm.fitness_score.getD 0
      let sqm ← match s.sleep_quality_metrics with
        | some sqm => Except.ok sqm
        | none => Except.error ()
      let sleep_score := sqm.sleep_score.getD 0
      if fitness_score > 70 ∧ sleep_score > 70 then
        pure (some { strength := "strong_positive"
                     description := "High fitness levels correlate with good sleep quality" })
      else if fitness_score < 50 ∧ sleep_score < 50 then
        pure (some { strength := "strong_negative"
                     description := "Low fitness and poor sleep may be interconnected" })
      else
        pure (some { strength := "moderate"
                     description := "Some correlation between fitness and sleep patterns" })
    | _, _ => pure none
  let mood_fitness : Option Correlation :=
    match m.summary, f.performance_metrics with
    | some sm, some pm =>
      let positive_pct := (sm.sentiment_distribution.getD ⟨none, none⟩).positive_percentage.getD 0
      let fitness_score := pm.fitness_score.getD 0
      if positive_pct > 60 ∧ fitness_score > 70 then
        some { strength := "strong_positive"
               description := "Positive mood correlates with high fitness levels" }
      else if positive_pct < 40 ∧ fitness_score < 50 then
        some { strength := "strong_negative"
               description := "Low mood and low fitness may be related" }
      else none
    | _, _ => none
  pure { fitness_sleep := fitness_sleep, mood_fitness := mood_fitness }

/-- `_generate_priority_recommendations`: four condition blocks appending in
a fixed order; the last block subscripts `sleep_data[sleep_quality_metrics]`
without a guard. -/
def generatePriorityRecommendations (f : FitnessData) (s : SleepData) (m : SentimentData) :
    Except Unit (List PriorityRecommendation) := do
  let r1 : List PriorityRecommendation :=
    match s.sleep_patterns with
    | some sp =>
      if sp.average_duration.getD 0 < 6 then
        [{ priority := "high", category := "sleep"
           recommendation := "Sleep duration is critically low. This should be your top priority for health improvement."
           action := "Establish a consistent bedtime routine and aim for 7-9 hours nightly." }]
      else []
    | none => []
  let r2 : List PriorityRecommendation :=
    match m.summary with
    | some sm =>
      if (sm.sentiment_distribution.getD ⟨none, none⟩).negative_percentage.getD 0 > 60 then
        [{ priority := "high", category := "mental_health"
           recommendation := "High frequency of negative emotions detected. Consider professional support."
           action := "Reach out to a mental health professional or trusted support system." }]
      else []
    | none => []
  let r3 : List PriorityRecommendation :=
    match f.performance_metrics with
    | some pm =>
      if pm.fitness_score.getD 0 < 60 then
        [{ priority := "medium", category := "fitness"
           recommendation := "Fitness levels could be improved for better health outcomes."
           action := "Start with 30 minutes of moderate activity daily, gradually increasing intensity." }]
      else []
    | none => []
  let r4 : List PriorityRecommendation ←
    match f.performance_metrics, s.sleep_patterns with
    | some pm, some _ => do
      let sqm ← match s.sleep_quality_metrics with
        | some sqm => Except.ok sqm
        | none => Except.error ()
      let fitness_score := pm.fitness_score.getD 0
      let sleep_score := sqm.sleep_score.getD 0
      if fitness_score > 80 ∧ sleep_score > 80 then
        pure [{ priority := "low", category := "maintenance"
                recommendation := "Excellent health metrics! Focus on maintaining current habits."
                action := "Continue current routine and consider adding variety to prevent plateau." }]
      else pure []
    | _, _ => pure []
  pure (r1 ++ r2 ++ r3 ++ r4)

/-- `_calculate_wellness_score`: a list of weighted components, one per
present section, summed (an empty list sums to the `0.0` fallback). -/
def calculateWellnessScore (f : FitnessData) (s : SleepData) (m : SentimentData) : ℚ :=
  let scores : List ℚ :=
    (match f.performance_metrics with
     | some pm => [pm.fitness_score.getD 0 * 0.4]
     | none => []) ++
    (match s.sleep_quality_metrics with
     | some sqm => [sqm.sleep_score.getD 0 * 0.35]
     | none => []) ++
    (match m.summary with
     | some sm => [(sm.sentiment_distribution.getD ⟨none, none⟩).positive_percentage.getD 0 * 0.25]
     | none => [])
  if scores = [] then 0 else scores.sum

/-- `_analyze_trends`. -/
def analyzeTrends (f : FitnessData) (s : SleepData) (m : SentimentData) : TrendAnalysis :=
  let fitness := f.trends.map fun t => t.steps_trend.getD "stable"
  let sleep := s.sleep_patterns.map fun sp => sp.quality_trend.getD "stable"
  let mood := m.sentiment_trends.map fun t => t.trend.getD "stable"
  let vals := fitness.toList ++ sleep.toList ++ mood.toList
  let improving := vals.countP fun v => v == "improving"
  let declining := vals.countP fun v => v == "declining"
  let overall :=
    if improving > declining then "improving"
    else if declining > improving then "declining"
    else "stable"
  { fitness := fitness, sleep := sleep, mood := mood, overall := overall }

/-- `_generate_action_plan`: three static phases, independent of the input. -/
def actionPlanPhases : List ActionPhase :=
  [{ week := "1", focus := "Foundation"
     actions := ["Establish consistent sleep schedule (same bedtime and wake time)",
                 "Start with 10-minute daily walks",
                 "Practice 5 minutes of daily gratitude journaling"] },
   { week := "2-4", focus := "Building Habits"
     actions := ["Increase daily steps to 7,000-8,000",
                 "Implement sleep hygiene practices",
                 "Add 10 minutes of mindfulness or meditation"] },
   { week := "2+ months", focus := "Optimization"
     actions := ["Aim for 10,000 daily steps",
                 "Maintain 7-9 hours of quality sleep",
                 "Develop stress management techniques"] }]

/-- `_generate_action_plan` ignores its three report arguments. -/
def generateActionPlan (_f : FitnessData) (_s : SleepData) (_m : SentimentData) :
    List ActionPhase :=
  actionPlanPhases

/-- `_get_error_response`. -/
def getErrorResponse : AggregatedInsight :=
  { user_id := "unknown"
    error := some "Insights aggregation failed"
    holistic_insights := []
    correlation_analysis := ⟨none, none⟩
    priority_recommendations := []
    wellness_score := 0
    trend_analysis := none
    action_plan := [] }

/-- The body of the `try` block of `aggregate_insights`, with each field
computed in program order; a `KeyError` from a helper propagates. -/
def aggregateInsightsBody (f : FitnessData) (s : SleepData) (m : SentimentData) :
    Except Unit AggregatedInsight :=
  match analyzeCorrelations f s m with
  | Except.error e => Except.error e
  | Except.ok ca =>
    match generatePriorityRecommendations f s m with
    | Except.error e => Except.error e
    | Except.ok pr =>
      Except.ok { user_id := f.user_id.getD "unknown"
                  error := none
                  holistic_insights := generateHolisticInsights f s m
                  correlation_analysis := ca
                  priority_recommendations := pr
                  wellness_score := calculateWellnessScore f s m
                  trend_analysis := some (analyzeTrends f s m)
                  action_plan := generateActionPlan f s m }

/-- `aggregate_insights`: the `try`/`except` wrapper that converts any
internal exception into `_get_error_response`. -/
def aggregateInsights (f : FitnessData) (s : SleepData) (m : SentimentData) :
    AggregatedInsight :=
  match aggregateInsightsBody f s m with
  | Except.ok r => r
  | Except.error _ => getErrorResponse

/-! ## Claim theorems -/

/-- C8: boundary classifications use ≥/< consistently: exactly 10000 steps is
"high" while 9999 is "moderate", and exactly 7.0 sleep hours is "excellent"
while 6.99 is "good". -/
theorem C8_boundary_classifications :
    classifyActivityLevel 10000 = "high" ∧ classifyActivityLevel 9999 = "moderate" ∧
    calculateSleepQuality 7 = "excellent" ∧ calculateSleepQuality (699/100) = "good" := by
  norm_num [classifyActivityLevel, calculateSleepQuality]

/-- C7: the sleep debt is the sum over all days of `max 0 (7.5 − duration)`,
each day contributing a nonnegative amount, and for durations
[7.5, 7.2, 6.5] the debt is 1.3. -/
theorem C7_sleep_debt :
    (∀ durations : List ℚ,
        calculateSleepDebt durations =
          (durations.map fun d => max 0 (optimalDuration - d)).sum) ∧
    (∀ d : ℚ, 0 ≤ max 0 (optimalDuration - d)) ∧
    calculateSleepDebt [7.5, 7.2, 6.5] = 1.3 := by
  have hscenario : calculateSleepDebt [7.5, 7.2, 6.5] = 1.3 := by
    have hne : ([7.5, 7.2, 6.5] : List ℚ) ≠ [] := by simp
    rw [calculateSleepDebt, if_neg hne]
    norm_num [optimalDuration, max_def]
  refine ⟨?_, fun d => le_max_left 0 _, hscenario⟩
  intro ds
  cases ds with
  | nil => simp [calculateSleepDebt]
  | cons a l => simp [calculateSleepDebt]

/-- C6: the fitness score is `(steps_score + hr_score) / 2` with
`steps_score = min 100 (mean steps / 10000 * 100)` and
`hr_score = max 0 (100 − (mean hr − 60) * 2)`; on the scenario records with
steps [8000, 9500, 8500] and heart rates [70, 72, 75] it is exactly 81,
within the ±0.5 tolerance of 81.0. -/
theorem C6_fitness_score_formula :
    (∀ steps heart_rates : List ℚ,
        calculateFitnessScore steps heart_rates =
          (min 100 (meanQ steps / 10000 * 100) +
            max 0 (100 - (meanQ heart_rates - 60) * 2)) / 2) ∧
    calculateFitnessScore [8000, 9500, 8500] [70, 72, 75] = 81 ∧
    |calculateFitnessScore [8000, 9500, 8500] [70, 72, 75] - 81| ≤ 1/2 := by
  have h : calculateFitnessScore [8000, 9500, 8500] [70, 72, 75] = 81 := by
    norm_num [calculateFitnessScore, meanQ, min_def, max_def]
  exact ⟨fun _ _ => rfl, h, by rw [h]; norm_num⟩

/-- C10: three reports with none of the recognized sections produce a
success-shaped result: no error field, wellness score 0, empty insights,
correlations and recommendations, overall trend "stable", and the static
three-phase action plan. -/
theorem C10_empty_reports_success_shape :
    aggregateInsights ⟨none, none, none⟩ ⟨none, none⟩ ⟨none, none⟩ =
      { user_id := "unknown"
        error := none
        holistic_insights := []
        correlation_analysis := ⟨none, none⟩
        priority_recommendations := []
        wellness_score := 0
        trend_analysis := some ⟨none, none, none, "stable"⟩
        action_plan := actionPlanPhases } ∧
    actionPlanPhases.length = 3 := by
  exact ⟨rfl, rfl⟩

/-- C2: the wellness score is the weighted sum, over the sections that are
present, of fitness_score × 0.4, sleep_score × 0.35 and the positive
sentiment percentage × 0.25; absent sections are omitted and with no
sections present the score is 0. -/
theorem C2_wellness_weighted_sum (f : FitnessData) (s : SleepData) (m : SentimentData) :
    calculateWellnessScore f s m =
      (match f.performance_metrics with
       | some pm => pm.fitness_score.getD 0 * 0.4
       | none => 0) +
      (match s.sleep_quality_metrics with
       | some sqm => sqm.sleep_score.getD 0 * 0.35
       | none => 0) +
      (match m.summary with
       | some sm => (sm.sentiment_distribution.getD ⟨none, none⟩).positive_percentage.getD 0 * 0.25
       | none => 0) ∧
    calculateWellnessScore ⟨none, none, none⟩ ⟨none, none⟩ ⟨none, none⟩ = 0 := by
  constructor
  · rcases f with ⟨fu, fpm, ft⟩
    rcases s with ⟨sp, sqm⟩
    rcases m with ⟨sm, st⟩
    cases fpm <;> cases sqm <;> cases sm <;>
      (simp [calculateWellnessScore]; try ring)
  · rfl

/-- C5 counterexample: a record with duration 10 hours and quality "poor"
satisfies the claim's high-priority condition (quality is poor) yet the code
assigns priority "medium", because the duration > 9 branch is checked first. -/
theorem C5_counterexample :
    (sleepRecommendationFor ⟨"2024-01-01", 10, "poor"⟩).priority = "medium" ∧
    (("medium" : String) = "high" → False) := by
  constructor
  · norm_num [sleepRecommendationFor]
  · intro h; exact absurd h (by decide)

/-- C5 amended: the priority follows the if/elif order of the code, with the
duration checks taking precedence over the quality checks: "high" for
duration < 6; otherwise "medium" for duration > 9 regardless of quality;
otherwise "high" for quality "poor", "medium" for quality "fair", else
"low". -/
theorem C5_priority_elif_order (e : SleepEntry) :
    (sleepRecommendationFor e).priority =
      (if e.sleep_hours < 6 then "high"
       else if e.sleep_hours > 9 then "medium"
       else if e.quality_score = "poor" then "high"
       else if e.quality_score = "fair" then "medium"
       else "low") ∧
    ((sleepRecommendationFor e).priority = "high" ↔
      e.sleep_hours < 6 ∨
        (6 ≤ e.sleep_hours ∧ e.sleep_hours ≤ 9 ∧ e.quality_score = "poor")) ∧
    ((sleepRecommendationFor e).priority = "medium" ↔
      9 < e.sleep_hours ∨
        (6 ≤ e.sleep_hours ∧ e.sleep_hours ≤ 9 ∧ e.quality_score ≠ "poor" ∧
          e.quality_score = "fair")) := by
  rcases e with ⟨date, d, q⟩
  have hpr : (sleepRecommendationFor ⟨date, d, q⟩).priority =
      (if d < 6 then "high"
       else if d > 9 then "medium"
       else if q = "poor" then "high"
       else if q = "fair" then "medium"
       else "low") := by
    simp only [sleepRecommendationFor]
    split_ifs <;> rfl
  refine ⟨hpr, ?_, ?_⟩
  · rw [hpr]; split_ifs with h1 h2 h3 h4
    · exact iff_of_true rfl (Or.inl h1)
    · constructor
      · intro h; exact absurd h (by decide)
      · rintro (h | ⟨-, h9, -⟩)
        · exact absurd h h1
        · linarith
    · exact iff_of_true rfl (Or.inr ⟨not_lt.mp h1, not_lt.mp h2, h3⟩)
    · constructor
      · intro h; exact absurd h (by decide)
      · rintro (h | ⟨-, -, hq⟩)
        · exact absurd h h1
        · exact absurd hq h3
    · constructor
      · intro h; exact absurd h (by decide)
      · rintro (h | ⟨-, -, hq⟩)
        · exact absurd h h1
        · exact absurd hq h3
  · rw [hpr]; split_ifs with h1 h2 h3 h4
    · constructor
      · intro h; exact absurd h (by decide)
      · rintro (h | ⟨h6, -, -⟩) <;> linarith
    · exact iff_of_true rfl (Or.inl h2)
    · constructor
      · intro h; exact absurd h (by decide)
      · rintro (h | ⟨-, -, hnq, -⟩)
        · exact absurd h h2
        · exact absurd h3 hnq
    · exact iff_of_true rfl (Or.inr ⟨not_lt.mp h1, not_lt.mp h2, h3, h4⟩)
    · constructor
      · intro h; exact absurd h (by decide)
      · rintro (h | ⟨-, -, -, hq⟩)
        · exact absurd h h2
        · exact absurd hq h4

/-- C9 counterexample: normalizing the same raw input at two different clock
readings yields different full outputs (the `last_updated` field differs),
even though the NormalizedRecord sequences agree, so two calls on the same
raw data do not produce equal outputs. -/
theorem C9_counterexample :
    (normalizeData "2024-01-01T00:00:00"
        ⟨some "u1", some [⟨some "2024-01-01", some 8000, some 70, some 7, none⟩]⟩ =
      normalizeData "2024-01-01T00:00:01"
        ⟨some "u1", some [⟨some "2024-01-01", some 8000, some 70, some 7, none⟩]⟩ → False) ∧
    (normalizeData "2024-01-01T00:00:00"
        ⟨some "u1", some [⟨some "2024-01-01", some 8000, some 70, some 7, none⟩]⟩).map
          NormalizedData.metrics =
      (normalizeData "2024-01-01T00:00:01"
        ⟨some "u1", some [⟨some "2024-01-01", some 8000, some 70, some 7, none⟩]⟩).map
          NormalizedData.metrics := by
  constructor
  · intro h
    have := congrArg (Option.map NormalizedData.last_updated) h
    simp [normalizeData, normalizeMetrics, normalizeMetric] at this
  · rfl

/-- C9 amended: the NormalizedRecord (metrics) sequence produced by
`normalize_data` is a pure, deterministic function of the raw input — it is
identical across calls at any two timestamps — but the full returned payload
is not, since its `last_updated` field records the current clock. -/
theorem C9_metrics_deterministic (t1 t2 : String) (raw : RawData) :
    (normalizeData t1 raw).map NormalizedData.metrics =
      (normalizeData t2 raw).map NormalizedData.metrics := by
  rcases raw with ⟨u, ms⟩
  cases u with
  | none => rfl
  | some uid =>
    cases ms with
    | none => rfl
    | some l =>
      cases h : normalizeMetrics l <;> simp [normalizeData, h]

/-- C4 counterexample: a raw input with a `user_id` and an empty `metrics`
array passes validation and normalizes successfully to zero records, whereas
the claim says normalization must fail on an empty metrics array. -/
theorem C4_counterexample :
    validateDataStructure ⟨some "user_1", some []⟩ = true ∧
    loadAndNormalize "t0" ⟨some "user_1", some []⟩ =
      some ⟨"user_1", "mock_data", "t0", []⟩ := by
  exact ⟨rfl, rfl⟩

/-- Helper: when every metric in the list carries all four required fields,
the normalization loop succeeds and yields exactly one normalized record per
raw metric. -/
theorem normalizeMetrics_length (l : List RawMetric)
    (h : ∀ m ∈ l, m.date.isSome ∧ m.steps.isSome ∧ m.heart_rate.isSome ∧
      m.sleep_hours.isSome) :
    ∃ l', normalizeMetrics l = some l' ∧ l'.length = l.length := by
  induction l with
  | nil => exact ⟨[], rfl, rfl⟩
  | cons m ms ih =>
    obtain ⟨l', hl', hlen⟩ := ih fun x hx => h x (List.mem_cons_of_mem _ hx)
    obtain ⟨hd, hs, hh, hsl⟩ := h m (List.mem_cons_self m ms)
    obtain ⟨d, hd'⟩ := Option.isSome_iff_exists.mp hd
    obtain ⟨st, hs'⟩ := Option.isSome_iff_exists.mp hs
    obtain ⟨hr, hh'⟩ := Option.isSome_iff_exists.mp hh
    obtain ⟨sl, hsl'⟩ := Option.isSome_iff_exists.mp hsl
    have hnm : (normalizeMetric m).isSome := by
      simp [normalizeMetric, hd', hs', hh', hsl']
    obtain ⟨nm, hnm'⟩ := Option.isSome_iff_exists.mp hnm
    refine ⟨nm :: l', ?_, ?_⟩
    · simp [normalizeMetrics, hnm', hl']
    · simp [hlen]

/-- C4 amended: validation fails exactly when the raw input lacks `user_id`,
lacks the `metrics` key, or some metric lacks one of date, steps, heart_rate,
sleep_hours; an empty metrics array passes validation (contrary to the
original claim), and every validated input normalizes successfully with one
NormalizedRecord per metric. -/
theorem C4_validation_characterization (raw : RawData) :
    (validateDataStructure raw = false ↔
      raw.user_id = none ∨ raw.metrics = none ∨
        ∃ m ∈ raw.metrics.getD [],
          m.date = none ∨ m.steps = none ∨ m.heart_rate = none ∨
            m.sleep_hours = none) ∧
    (validateDataStructure raw = true →
      ∀ now, ∃ out, normalizeData now raw = some out ∧
        out.metrics.length = (raw.metrics.getD []).length) := by
  rcases raw with ⟨u, ms⟩
  constructor
  · cases u with
    | none => simp [validateDataStructure]
    | some uid =>
      cases ms with
      | none => simp [validateDataStructure]
      | some l =>
        simp only [validateDataStructure, Option.isSome_some, Bool.true_and,
          Option.getD_some, reduceCtorEq, false_or]
        rw [← Bool.not_eq_true, List.all_eq_true]
        push_neg
        constructor
        · rintro ⟨m, hm, hfield⟩
          refine ⟨m, hm, ?_⟩
          by_contra hcon
          push_neg at hcon
          obtain ⟨hd, hs, hh, hsl⟩ := hcon
          apply hfield
          simp [Option.isSome_iff_ne_none, hd, hs, hh, hsl]
        · rintro ⟨m, hm, hfield⟩
          refine ⟨m, hm, ?_⟩
          intro hcon
          simp only [Bool.and_eq_true, Option.isSome_iff_ne_none] at hcon
          rcases hfield with h | h | h | h <;> tauto
  · intro hval now
    cases u with
    | none => simp [validateDataStructure] at hval
    | some uid =>
      cases ms with
      | none => simp [validateDataStructure] at hval
      | some l =>
        simp only [validateDataStructure, Option.isSome_some, Bool.true_and,
          Option.getD_some, List.all_eq_true, Bool.and_eq_true] at hval
        obtain ⟨l', hl', hlen⟩ := normalizeMetrics_length l fun m hm => by
          obtain ⟨⟨⟨h1, h2⟩, h3⟩, h4⟩ := hval m hm
          exact ⟨h1, h2, h3, h4⟩
        refine ⟨⟨uid, "mock_data", now, l'⟩, ?_, ?_⟩
        · simp [normalizeData, hl']
        · simpa using hlen

/-- C4 witness: a concrete validated input with one full metric normalizes to
exactly one record. -/
theorem C4_validation_witness :
    validateDataStructure
        ⟨some "user_1", some [⟨some "2024-01-01", some 8000, some 70, some 7, none⟩]⟩ = true ∧
    ∃ out, normalizeData "t0"
        ⟨some "user_1", some [⟨some "2024-01-01", some 8000, some 70, some 7, none⟩]⟩ =
          some out ∧
      out.metrics.length =
        ((⟨some "user_1", some [⟨some "2024-01-01", some 8000, some 70, some 7, none⟩]⟩ :
          RawData).metrics.getD []).length :=
  ⟨rfl,
    (C4_validation_characterization
      ⟨some "user_1", some [⟨some "2024-01-01", some 8000, some 70, some 7, none⟩]⟩).2
      rfl "t0"⟩

/-- Helper: every successful run of the aggregation body produces a result
with no error field. -/
theorem aggregateInsightsBody_ok_error_none (f : FitnessData) (s : SleepData)
    (m : SentimentData) :
    ∀ r, aggregateInsightsBody f s m = Except.ok r → r.error = none := by
  intro r h
  unfold aggregateInsightsBody at h
  cases hca : analyzeCorrelations f s m with
  | error e => rw [hca] at h; exact absurd h (by simp)
  | ok ca =>
    rw [hca] at h
    cases hpr : generatePriorityRecommendations f s m with
    | error e => rw [hpr] at h; exact absurd h (by simp)
    | ok pr =>
      rw [hpr] at h
      cases h
      rfl

/-- C3: the aggregator always returns a value of the result shape — every
outcome is either a success-shaped result with no error field or exactly the
error response; the error response is fully populated with an explicit error
field, wellness score 0 and empty collections; and the concrete call in
which the sleep report lacks the required `sleep_quality_metrics` key (while
`sleep_patterns` and the fitness report's `performance_metrics` are present)
returns that error-shaped result rather than propagating the `KeyError`. -/
theorem C3_error_contract :
    (∀ f s m, (aggregateInsights f s m).error = none ∨
      aggregateInsights f s m = getErrorResponse) ∧
    getErrorResponse.error = some "Insights aggregation failed" ∧
    getErrorResponse.wellness_score = 0 ∧
    getErrorResponse.holistic_insights = [] ∧
    getErrorResponse.correlation_analysis = ⟨none, none⟩ ∧
    getErrorResponse.priority_recommendations = [] ∧
    getErrorResponse.trend_analysis = none ∧
    getErrorResponse.action_plan = [] ∧
    aggregateInsights
      ⟨some "user_1", some ⟨some 8666, some 81⟩, some ⟨some "increasing"⟩⟩
      ⟨some ⟨some 7, some "stable"⟩, none⟩
      ⟨some ⟨some "positive", some ⟨some 50, some 20⟩⟩, some ⟨some "stable"⟩⟩ =
      getErrorResponse := by
  refine ⟨?_, rfl, rfl, rfl, rfl, rfl, rfl, rfl, ?_⟩
  · intro f s m
    cases hb : aggregateInsightsBody f s m with
    | ok r =>
      left
      have : aggregateInsights f s m = r := by simp [aggregateInsights, hb]
      rw [this]
      exact aggregateInsightsBody_ok_error_none f s m r hb
    | error e =>
      right
      simp [aggregateInsights, hb]
  · rfl

/-- A valid normalized record in the sense of the score-range claim:
nonnegative steps, strictly positive heart rate, nonnegative sleep hours. -/
abbrev ValidMetric (m : NormalizedMetric) : Prop :=
  0 ≤ m.physical_activity.steps ∧ 0 < m.physical_activity.heart_rate ∧
    0 ≤ m.sleep.duration_hours

/-- A fitness report carrying a given fitness score in its
`performance_metrics` section, the only part `_calculate_wellness_score`
reads from it. -/
def fitnessReportOfScore (x : ℚ) : FitnessData :=
  ⟨some "user_1", some ⟨none, some x⟩, none⟩

/-- A sleep report carrying a given sleep score in its
`sleep_quality_metrics` section. -/
def sleepReportOfScore (x : ℚ) : SleepData :=
  ⟨none, some ⟨some x⟩⟩

/-- A sentiment report carrying a given positive percentage in its
`summary.sentiment_distribution`. -/
def sentimentReportOfPct (x : ℚ) : SentimentData :=
  ⟨some ⟨none, some ⟨some x, none⟩⟩, none⟩

/-- Helper: the mean of a list of nonnegative rationals is nonnegative. -/
theorem meanQ_nonneg (xs : List ℚ) (h : ∀ x ∈ xs, 0 ≤ x) : 0 ≤ meanQ xs :=
  div_nonneg (List.sum_nonneg h) (Nat.cast_nonneg _)

/-- Helper: the sleep agent's consistency value never exceeds 1 when the
mean duration is nonnegative. -/
theorem calculateConsistency_le_one (ds : List ℚ) (h : 0 ≤ meanQ ds) :
    calculateConsistency ds ≤ 1 := by
  unfold calculateConsistency
  split_ifs with hlen
  · exact le_refl 1
  · have h1 : (0:ℝ) ≤ stdQ ds / (meanQ ds : ℝ) :=
      div_nonneg (Real.sqrt_nonneg _) (by exact_mod_cast h)
    linarith

/-- The single valid record refuting the original range claim: 10000 steps,
heart rate 50, 7 hours of sleep. -/
def c1LowHrRecord : NormalizedMetric :=
  { date := "2024-01-01"
    physical_activity := { steps := 10000, heart_rate := 50, hrv := 0 }
    sleep := { duration_hours := 7, quality_score := "excellent" }
    derived_metrics := { activity_level := "high", heart_rate_zone := "resting"
                         sleep_adequacy := "adequate" } }

/-- C1 counterexample: the sequence consisting of the single valid record
with 10000 steps, heart rate 50 and 7 sleep hours yields fitness score 110,
outside [0,100]: the `hr_score` term `max 0 (100 − (mean_hr − 60)·2)` is not
clamped above, so a mean heart rate below 60 pushes it past 100. -/
theorem C1_counterexample :
    ValidMetric c1LowHrRecord ∧
    calculateFitnessScore (stepsData [c1LowHrRecord]) (heartRateData [c1LowHrRecord]) = 110 ∧
    ¬ calculateFitnessScore (stepsData [c1LowHrRecord]) (heartRateData [c1LowHrRecord]) ≤ 100 := by
  have h : calculateFitnessScore (stepsData [c1LowHrRecord]) (heartRateData [c1LowHrRecord]) = 110 := by
    norm_num [calculateFitnessScore, stepsData, heartRateData, meanQ, c1LowHrRecord,
      min_def, max_def]
  refine ⟨⟨by norm_num [c1LowHrRecord], by norm_num [c1LowHrRecord], by norm_num [c1LowHrRecord]⟩,
    h, ?_⟩
  rw [h]; norm_num

/-- C1 amended: for every non-empty sequence of valid records, all pipeline
scores lie in [0,100] provided additionally that the mean heart rate is at
least 60 (otherwise fitness_score exceeds 100, see the counterexample), the
duration-consistency value is nonnegative (otherwise sleep_score can be
negative), the duration series is a single day or has positive mean
(excluding the division-by-zero of an all-zero series), and the wellness
combination receives a sleep score and positive percentage in [0,100]. -/
theorem C1_scores_in_range
    (ms : List NormalizedMetric) (s p : ℚ)
    (hne : ms ≠ [])
    (hvalid : ∀ m ∈ ms, ValidMetric m)
    (hhr : 60 ≤ meanQ (heartRateData ms))
    (hcons : (0:ℝ) ≤ calculateConsistency (sleepDurations ms))
    (_hmean : 0 < meanQ (sleepDurations ms) ∨ (sleepDurations ms).length < 2)
    (hs0 : 0 ≤ s) (hs1 : s ≤ 100) (hp0 : 0 ≤ p) (hp1 : p ≤ 100) :
    (0 ≤ calculateFitnessScore (stepsData ms) (heartRateData ms) ∧
      calculateFitnessScore (stepsData ms) (heartRateData ms) ≤ 100) ∧
    ((0:ℝ) ≤ calculateSleepScore (sleepDurations ms) ∧
      calculateSleepScore (sleepDurations ms) ≤ 100) ∧
    (0 ≤ calculateWellnessScore
        (fitnessReportOfScore (calculateFitnessScore (stepsData ms) (heartRateData ms)))
        (sleepReportOfScore s) (sentimentReportOfPct p) ∧
      calculateWellnessScore
        (fitnessReportOfScore (calculateFitnessScore (stepsData ms) (heartRateData ms)))
        (sleepReportOfScore s) (sentimentReportOfPct p) ≤ 100) := by
  have hsteps_nonneg : ∀ x ∈ stepsData ms, (0:ℚ) ≤ x := by
    intro x hx
    simp only [stepsData, List.mem_map] at hx
    obtain ⟨m, hm, rfl⟩ := hx
    exact_mod_cast (hvalid m hm).1
  have hms : 0 ≤ meanQ (stepsData ms) := meanQ_nonneg _ hsteps_nonneg
  have hfit : 0 ≤ calculateFitnessScore (stepsData ms) (heartRateData ms) ∧
      calculateFitnessScore (stepsData ms) (heartRateData ms) ≤ 100 := by
    unfold calculateFitnessScore
    constructor
    · have h1 : (0:ℚ) ≤ min 100 (meanQ (stepsData ms) / 10000 * 100) :=
        le_min (by norm_num) (mul_nonneg (div_nonneg hms (by norm_num)) (by norm_num))
      have h2 : (0:ℚ) ≤ max 0 (100 - (meanQ (heartRateData ms) - 60) * 2) :=
        le_max_left _ _
      linarith
    · have h1 : min 100 (meanQ (stepsData ms) / 10000 * 100) ≤ 100 := min_le_left _ _
      have h2 : max 0 (100 - (meanQ (heartRateData ms) - 60) * 2) ≤ 100 :=
        max_le (by norm_num) (by linarith)
      linarith
  have hdne : sleepDurations ms ≠ [] := by
    simpa [sleepDurations] using hne
  have hdur_nonneg : ∀ x ∈ sleepDurations ms, (0:ℚ) ≤ x := by
    intro x hx
    simp only [sleepDurations, List.mem_map] at hx
    obtain ⟨m, hm, rfl⟩ := hx
    exact (hvalid m hm).2.2
  have hdmean : 0 ≤ meanQ (sleepDurations ms) := meanQ_nonneg _ hdur_nonneg
  have hcons1 : calculateConsistency (sleepDurations ms) ≤ 1 :=
    calculateConsistency_le_one _ hdmean
  have hsleep : (0:ℝ) ≤ calculateSleepScore (sleepDurations ms) ∧
      calculateSleepScore (sleepDurations ms) ≤ 100 := by
    simp only [calculateSleepScore, if_neg hdne]
    have hlo : (30:ℝ) ≤
        (if 7 ≤ meanQ (sleepDurations ms) ∧ meanQ (sleepDurations ms) ≤ 9 then (70:ℝ)
         else if (6 ≤ meanQ (sleepDurations ms) ∧ meanQ (sleepDurations ms) < 7) ∨
            (9 < meanQ (sleepDurations ms) ∧ meanQ (sleepDurations ms) ≤ 10) then 50
         else 30) := by
      split_ifs <;> norm_num
    have hhi :
        (if 7 ≤ meanQ (sleepDurations ms) ∧ meanQ (sleepDurations ms) ≤ 9 then (70:ℝ)
         else if (6 ≤ meanQ (sleepDurations ms) ∧ meanQ (sleepDurations ms) < 7) ∨
            (9 < meanQ (sleepDurations ms) ∧ meanQ (sleepDurations ms) ≤ 10) then 50
         else 30) ≤ 70 := by
      split_ifs <;> norm_num
    have hc0 : (0:ℝ) ≤ calculateConsistency (sleepDurations ms) * 30 :=
      mul_nonneg hcons (by norm_num)
    have hc1 : calculateConsistency (sleepDurations ms) * 30 ≤ 30 := by
      have := mul_le_mul_of_nonneg_right hcons1 (show (0:ℝ) ≤ 30 by norm_num)
      linarith
    constructor <;> linarith
  refine ⟨hfit, hsleep, ?_⟩
  have hwell : calculateWellnessScore
      (fitnessReportOfScore (calculateFitnessScore (stepsData ms) (heartRateData ms)))
      (sleepReportOfScore s) (sentimentReportOfPct p) =
      calculateFitnessScore (stepsData ms) (heartRateData ms) * 0.4 +
        (s * 0.35 + p * 0.25) := by
    simp [calculateWellnessScore, fitnessReportOfScore, sleepReportOfScore,
      sentimentReportOfPct]
  rw [hwell]
  constructor
  · have := hfit.1
    nlinarith [hfit.1, hs0, hp0]
  · nlinarith [hfit.2, hs1, hp1]

/-- The concrete valid record instantiating the amended range claim: 8000
steps, heart rate 70, 7 hours of sleep. -/
def c1WitnessRecord : NormalizedMetric :=
  { date := "2024-01-02"
    physical_activity := { steps := 8000, heart_rate := 70, hrv := 0 }
    sleep := { duration_hours := 7, quality_score := "excellent" }
    derived_metrics := { activity_level := "moderate", heart_rate_zone := "normal"
                         sleep_adequacy := "adequate" } }

/-- C1 witness: the amended range claim instantiated at the concrete
single-record sequence with 8000 steps, heart rate 70 and 7 sleep hours,
with sleep score 70 and positive percentage 50 fed to the wellness
combination. -/
theorem C1_scores_in_range_witness :
    (([c1WitnessRecord] : List NormalizedMetric) ≠ [] ∧
     (∀ m ∈ ([c1WitnessRecord] : List NormalizedMetric), ValidMetric m) ∧
     60 ≤ meanQ (heartRateData [c1WitnessRecord]) ∧
     (0:ℝ) ≤ calculateConsistency (sleepDurations [c1WitnessRecord]) ∧
     (0 < meanQ (sleepDurations [c1WitnessRecord]) ∨
       (sleepDurations [c1WitnessRecord]).length < 2) ∧
     (0:ℚ) ≤ 70 ∧ (70:ℚ) ≤ 100 ∧ (0:ℚ) ≤ 50 ∧ (50:ℚ) ≤ 100) ∧
    ((0 ≤ calculateFitnessScore (stepsData [c1WitnessRecord]) (heartRateData [c1WitnessRecord]) ∧
        calculateFitnessScore (stepsData [c1WitnessRecord]) (heartRateData [c1WitnessRecord]) ≤ 100) ∧
      ((0:ℝ) ≤ calculateSleepScore (sleepDurations [c1WitnessRecord]) ∧
        calculateSleepScore (sleepDurations [c1WitnessRecord]) ≤ 100) ∧
      (0 ≤ calculateWellnessScore
          (fitnessReportOfScore
            (calculateFitnessScore (stepsData [c1WitnessRecord]) (heartRateData [c1WitnessRecord])))
          (sleepReportOfScore 70) (sentimentReportOfPct 50) ∧
        calculateWellnessScore
          (fitnessReportOfScore
            (calculateFitnessScore (stepsData [c1WitnessRecord]) (heartRateData [c1WitnessRecord])))
          (sleepReportOfScore 70) (sentimentReportOfPct 50) ≤ 100)) := by
  have hne' : ([c1WitnessRecord] : List NormalizedMetric) ≠ [] := by simp
  have hvalid' : ∀ m ∈ ([c1WitnessRecord] : List NormalizedMetric), ValidMetric m := by
    intro m hm
    simp only [List.mem_singleton] at hm
    subst hm
    exact ⟨by norm_num [c1WitnessRecord], by norm_num [c1WitnessRecord],
      by norm_num [c1WitnessRecord]⟩
  have hhr' : (60:ℚ) ≤ meanQ (heartRateData [c1WitnessRecord]) := by
    norm_num [meanQ, heartRateData, c1WitnessRecord]
  have hcons' : (0:ℝ) ≤ calculateConsistency (sleepDurations [c1WitnessRecord]) := by
    norm_num [calculateConsistency, sleepDurations, c1WitnessRecord]
  have hmean' : 0 < meanQ (sleepDurations [c1WitnessRecord]) ∨
      (sleepDurations [c1WitnessRecord]).length < 2 := by
    right
    norm_num [sleepDurations, c1WitnessRecord]
  exact ⟨⟨hne', hvalid', hhr', hcons', hmean',
      by norm_num, by norm_num, by norm_num, by norm_num⟩,
    C1_scores_in_range [c1WitnessRecord] 70 50 hne' hvalid' hhr' hcons' hmean'
      (by norm_num) (by norm_num) (by norm_num) (by norm_num)⟩
